import Mathlib

/-!
# Verification of pytroll-db core behaviour

A shallow embedding of the core of the `pytroll-db` repository:

* the aggregation-pipeline builder modules
  `trolldb/database/pipelines.py` and its older duplicate
  `trolldb/database/piplines.py` (the misspelled module is the one
  actually imported by the queries route),
* the time filter built by the queries route
  (`trolldb/api/routes/queries.py`),
* the MongoDB gateway lifecycle (`trolldb/database/mongodb.py`),
* the message recorder (`trolldb/cli.py`),
* the database configuration model (`trolldb/config/config.py`).

Python dictionaries, lists, strings, integers and `None` are modelled by
the `PyValue` tree below; dictionaries are association lists in insertion
order, which is faithful to Python dicts built by single literals as the
source does.
-/

namespace Trolldb

/-- Model of the Python/BSON values the pipeline builder manipulates:
`None`, integers (standing in also for datetimes, which are totally
ordered scalars as far as the pipeline builder is concerned), strings,
lists and dictionaries (as insertion-ordered association lists). -/
inductive PyValue where
  | pynone : PyValue
  | int : Int → PyValue
  | str : String → PyValue
  | list : List PyValue → PyValue
  | dict : List (String × PyValue) → PyValue
deriving Repr

/-- Python truthiness for `PyValue`: `None`, `0`, `""`, `[]` and `{}` are
falsy, everything else is truthy (`if other else {}` in the source). -/
def PyValue.truthy : PyValue → Bool
  | .pynone => false
  | .int n => n ≠ 0
  | .str s => s ≠ ""
  | .list vs => !vs.isEmpty
  | .dict kvs => !kvs.isEmpty

/-- Whether the value is a Python `list` (`isinstance(other, list)`). -/
def PyValue.isList : PyValue → Bool
  | .list _ => true
  | _ => false

/-! ## `trolldb/database/pipelines.py` (the module exercised by the tests) -/

namespace pipelines

/-- `PipelineBooleanDict.__or__`: `{"$or": [self, other]}`
(pipelines.py lines 33–35). -/
def PipelineBooleanDict.or (self other : PyValue) : PyValue :=
  .dict [("$or", .list [self, other])]

/-- `PipelineBooleanDict.__and__`: `{"$and": [self, other]}`
(pipelines.py lines 37–39). -/
def PipelineBooleanDict.and (self other : PyValue) : PyValue :=
  .dict [("$and", .list [self, other])]

/-- `PipelineAttribute.__eq__` (pipelines.py lines 52–78): a list operand
yields an `$or` of per-value equality leaves, any other operand yields a
single equality leaf `{key: other}`. -/
def PipelineAttribute.eq (key : String) (other : PyValue) : PyValue :=
  match other with
  | .list vs => .dict [("$or", .list (vs.map fun v => .dict [(key, v)]))]
  | v => .dict [(key, v)]

/-- `PipelineAttribute.__aux_operators` (pipelines.py lines 80–90): a list
operand yields an `$or` of per-value comparisons; otherwise a truthy
operand yields `{key: {operator: other}}` and a falsy one the empty dict. -/
def PipelineAttribute.auxOperators (key : String) (operator : String)
    (other : PyValue) : PyValue :=
  match other with
  | .list vs =>
      .dict [("$or", .list (vs.map fun v => .dict [(key, .dict [(operator, v)])]))]
  | v => if v.truthy then .dict [(key, .dict [(operator, v)])] else .dict []

/-- `PipelineAttribute.__ge__` (pipelines.py lines 92–94). -/
def PipelineAttribute.ge (key : String) (other : PyValue) : PyValue :=
  PipelineAttribute.auxOperators key "$gte" other

/-- `PipelineAttribute.__gt__` (pipelines.py lines 96–98). -/
def PipelineAttribute.gt (key : String) (other : PyValue) : PyValue :=
  PipelineAttribute.auxOperators key "$gt" other

/-- `PipelineAttribute.__le__` (pipelines.py lines 100–102). -/
def PipelineAttribute.le (key : String) (other : PyValue) : PyValue :=
  PipelineAttribute.auxOperators key "$lte" other

/-- `PipelineAttribute.__lt__` (pipelines.py lines 104–106): renders the
`$lt` operator. -/
def PipelineAttribute.lt (key : String) (other : PyValue) : PyValue :=
  PipelineAttribute.auxOperators key "$lt" other

end pipelines

/-! ## `trolldb/database/piplines.py` (misspelled duplicate, imported by
`trolldb/api/routes/queries.py`) -/

namespace piplines

/-- `PipelineBooleanDict.__or__` (piplines.py lines 29–31). -/
def PipelineBooleanDict.or (self other : PyValue) : PyValue :=
  .dict [("$or", .list [self, other])]

/-- `PipelineBooleanDict.__and__` (piplines.py lines 33–35). -/
def PipelineBooleanDict.and (self other : PyValue) : PyValue :=
  .dict [("$and", .list [self, other])]

/-- `PipelineAttribute.__eq__` (piplines.py lines 48–56); identical to the
`pipelines.py` version. -/
def PipelineAttribute.eq (key : String) (other : PyValue) : PyValue :=
  match other with
  | .list vs => .dict [("$or", .list (vs.map fun v => .dict [(key, v)]))]
  | v => .dict [(key, v)]

/-- `PipelineAttribute.__aux_operators` (piplines.py lines 58–60): no list
branch in this revision; a truthy operand yields `{key: {operator: other}}`
and a falsy one the empty dict. -/
def PipelineAttribute.auxOperators (key : String) (operator : String)
    (other : PyValue) : PyValue :=
  if other.truthy then .dict [(key, .dict [(operator, other)])] else .dict []

/-- `PipelineAttribute.__ge__` (piplines.py lines 62–64). -/
def PipelineAttribute.ge (key : String) (other : PyValue) : PyValue :=
  PipelineAttribute.auxOperators key "$gte" other

/-- `PipelineAttribute.__gt__` (piplines.py lines 66–68). -/
def PipelineAttribute.gt (key : String) (other : PyValue) : PyValue :=
  PipelineAttribute.auxOperators key "$gt" other

/-- `PipelineAttribute.__le__` (piplines.py lines 70–72). -/
def PipelineAttribute.le (key : String) (other : PyValue) : PyValue :=
  PipelineAttribute.auxOperators key "$lte" other

/-- `PipelineAttribute.__lt__` (piplines.py lines 74–76): this revision
passes the string `"$le"` as the operator. -/
def PipelineAttribute.lt (key : String) (other : PyValue) : PyValue :=
  PipelineAttribute.auxOperators key "$le" other

/-- `Pipelines` (piplines.py lines 79–102): a Python list of match stages,
modelled together with its object identity (`objId`), since `__add__`
mutates the receiver and returns it rather than building a fresh list. -/
structure Pipelines where
  objId : Nat
  stages : List PyValue
deriving Repr

/-- `Pipelines.__iadd__` (piplines.py lines 88–94):
`self.extend([{"$match": other}])` followed by `return self`,
so the result is the receiver itself with one appended stage. -/
def Pipelines.iadd (self : Pipelines) (other : PyValue) : Pipelines :=
  { objId := self.objId, stages := self.stages ++ [.dict [("$match", other)]] }

/-- `Pipelines.__add__` (piplines.py lines 96–102):
`self.append({"$match": other})` followed by `return self` — unlike
`list.__add__`, it mutates the receiver in place and returns it. -/
def Pipelines.add (self : Pipelines) (other : PyValue) : Pipelines :=
  { objId := self.objId, stages := self.stages ++ [.dict [("$match", other)]] }

end piplines

namespace pipelines

/-- `Pipelines` (pipelines.py lines 109–151), identical to the
`piplines.py` version: a list of match stages with its object identity. -/
structure Pipelines where
  objId : Nat
  stages : List PyValue
deriving Repr

/-- `Pipelines.__iadd__` (pipelines.py lines 137–143):
`self.extend([{"$match": other}])` followed by `return self`. -/
def Pipelines.iadd (self : Pipelines) (other : PyValue) : Pipelines :=
  { objId := self.objId, stages := self.stages ++ [.dict [("$match", other)]] }

/-- `Pipelines.__add__` (pipelines.py lines 145–151):
`self.append({"$match": other})` followed by `return self` — it mutates the
receiver in place and returns it, instead of returning a fresh list. -/
def Pipelines.add (self : Pipelines) (other : PyValue) : Pipelines :=
  { objId := self.objId, stages := self.stages ++ [.dict [("$match", other)]] }

end pipelines

/-! ## `trolldb/api/routes/queries.py`

The queries route imports `PipelineAttribute` and `Pipelines` from the
misspelled module `trolldb.database.piplines`. -/

namespace queries

/-- The time filter appended by the queries route when at least one of
`time_min`/`time_max` is given (queries.py lines 41–49):

`(start_time >= time_min) | (start_time <= time_max) |
 (end_time >= time_min) | (end_time <= time_max)`,

with `|` associating left-to-right. -/
def timeFilter (time_min time_max : PyValue) : PyValue :=
  piplines.PipelineBooleanDict.or
    (piplines.PipelineBooleanDict.or
      (piplines.PipelineBooleanDict.or
        (piplines.PipelineAttribute.ge "start_time" time_min)
        (piplines.PipelineAttribute.le "start_time" time_max))
      (piplines.PipelineAttribute.ge "end_time" time_min))
    (piplines.PipelineAttribute.le "end_time" time_max)

/-- Modelled from the spec: the combination the spec prescribes for the
time filter — `(start_time >= time_min AND start_time <= time_max) OR
(end_time >= time_min AND end_time <= time_max)`, a conjunction of the two
bounds per field, OR-combined across the two fields. It exists only to be
compared with `timeFilter`, which is translated from the route's code. -/
def timeFilterSpec (time_min time_max : PyValue) : PyValue :=
  piplines.PipelineBooleanDict.or
    (piplines.PipelineBooleanDict.and
      (piplines.PipelineAttribute.ge "start_time" time_min)
      (piplines.PipelineAttribute.le "start_time" time_max))
    (piplines.PipelineBooleanDict.and
      (piplines.PipelineAttribute.ge "end_time" time_min)
      (piplines.PipelineAttribute.le "end_time" time_max))

end queries

/-! ## `trolldb/config/config.py` -/

namespace config

/-- `DatabaseConfig` (config.py lines 92–109): a named tuple of the main
database name, the main collection name, the MongoDB URL (kept as its
string form; the `MongoDsn` format check is about the URL only) and the
timeout. -/
structure DatabaseConfig where
  main_database_name : String
  main_collection_name : String
  url : String
  timeout : Int
deriving DecidableEq, Repr

/-- Pydantic validation of a `DatabaseConfig` as performed when a config is
parsed or passed to a `@validate_call` function: the two names carry the
plain `str` annotation (any string passes — there is no non-emptiness
constraint in the source), and the timeout is an `int` annotated
`Field(gt=-1)` (config.py line 106). -/
def DatabaseConfig.validates (c : DatabaseConfig) : Bool :=
  c.timeout > -1

end config

/-! ## `trolldb/database/errors.py` -/

/-- The structured error values defined in `trolldb/database/errors.py`,
one constructor per `ResponseError` constant. -/
inductive ResponseError where
  | closeNotAllowed
  | reinitializeConfig
  | alreadyOpen
  | inconsistency
  | connection
  | collectionsNotFound
  | collectionsWrongType
  | databasesNotFound
  | databasesWrongType
  | documentsNotFound
deriving DecidableEq, Repr

/-- The HTTP-style status code each error value carries
(errors.py lines 16–77). -/
def ResponseError.status_code : ResponseError → Nat
  | .closeNotAllowed => 405
  | .reinitializeConfig => 405
  | .alreadyOpen => 100
  | .inconsistency => 405
  | .connection => 400
  | .collectionsNotFound => 404
  | .collectionsWrongType => 422
  | .databasesNotFound => 404
  | .databasesWrongType => 422
  | .documentsNotFound => 404

namespace Client

/-- `Client.CloseNotAllowedError` (errors.py lines 18–21). -/
def CloseNotAllowedError : ResponseError := .closeNotAllowed

/-- `Client.ReinitializeConfigError` (errors.py lines 23–26). -/
def ReinitializeConfigError : ResponseError := .reinitializeConfig

/-- `Client.AlreadyOpenError` (errors.py lines 28–31). -/
def AlreadyOpenError : ResponseError := .alreadyOpen

/-- `Client.InconsistencyError` (errors.py lines 33–38). -/
def InconsistencyError : ResponseError := .inconsistency

/-- `Client.ConnectionError` (errors.py lines 40–43). -/
def ConnectionError : ResponseError := .connection

end Client

namespace Collections

/-- `Collections.NotFoundError` (errors.py lines 48–51). -/
def NotFoundError : ResponseError := .collectionsNotFound

/-- `Collections.WrongTypeError` (errors.py lines 53–56). -/
def WrongTypeError : ResponseError := .collectionsWrongType

end Collections

namespace Databases

/-- `Databases.NotFoundError` (errors.py lines 61–64). -/
def NotFoundError : ResponseError := .databasesNotFound

end Databases

/-! ## `trolldb/database/mongodb.py` -/

namespace mongodb

/-- `errno.EIO` (Linux). -/
def EIO : Nat := 5

/-- `errno.ENODATA` (Linux). -/
def ENODATA : Nat := 61

/-- A motor client handle, carrying what its constructor receives at
mongodb.py lines 155–157:
`AsyncIOMotorClient(url, serverSelectionTimeoutMS=timeout*1000)`. -/
structure AsyncIOMotorClient where
  url : String
  serverSelectionTimeoutMS : Int
deriving DecidableEq, Repr

/-- A database handle obtained via `client.get_database(name)`. -/
structure AsyncIOMotorDatabase where
  name : String
deriving DecidableEq, Repr

/-- A collection handle obtained via `database.get_collection(name)` or
`database[name]`. -/
structure AsyncIOMotorCollection where
  database_name : String
  name : String
deriving DecidableEq, Repr

/-- The class-level state of the `MongoDB` gateway
(mongodb.py lines 100–103): `__client`, `__database_config`,
`__main_collection` and `__main_database`, each initially `None`. -/
structure MongoDBState where
  client : Option AsyncIOMotorClient
  database_config : Option config.DatabaseConfig
  main_collection : Option AsyncIOMotorCollection
  main_database : Option AsyncIOMotorDatabase
deriving DecidableEq, Repr

/-- The environment the gateway talks to: whether the server answers the
initial listing round trip within the timeout, the database-names listing,
and the collection-names listing of each database. -/
structure MongoWorld where
  reachable : Bool
  database_names : List String
  collection_names : String → List String

/-- The observable outcome of a gateway call: a normal return, a logged
warning (`ResponseError.log_as_warning`, which returns `None`), or a fatal
`ResponseError.sys_exit_log` carrying the exit code passed to
`sys.exit`. -/
inductive Outcome where
  | ok
  | warning : ResponseError → Outcome
  | sysExit : ResponseError → Nat → Outcome
deriving DecidableEq, Repr

/-- `MongoDB.initializeClient` (mongodb.py lines 142–186), as a transformer of
the class-level state returning the new state and the call's outcome. The
config check mirrors lines 144–150; on success the client is stored first
(line 155), then the reachability of the server is probed via
`list_database_names` (line 162), the main database and collection names
are checked against the listings (lines 172, 180), and finally the main
collection handle and the config are stored (lines 184–185). On a
`sys_exit` outcome the state reflects the assignments made up to the exit
point. -/
def MongoDB.initializeClient (world : MongoWorld) (s : MongoDBState)
    (database_config : config.DatabaseConfig) : MongoDBState × Outcome :=
  match s.database_config with
  | some stored =>
      if database_config = stored then
        match s.client with
        | some _ => (s, .warning Client.AlreadyOpenError)
        | none => (s, .sysExit Client.InconsistencyError EIO)
      else
        (s, .sysExit Client.ReinitializeConfigError EIO)
  | none =>
      let newClient : AsyncIOMotorClient :=
        ⟨database_config.url, database_config.timeout * 1000⟩
      let s1 : MongoDBState := { s with client := some newClient }
      if !world.reachable then
        (s1, .sysExit Client.ConnectionError EIO)
      else if database_config.main_database_name ∉ world.database_names then
        (s1, .sysExit Databases.NotFoundError ENODATA)
      else
        let s2 : MongoDBState :=
          { s1 with main_database := some ⟨database_config.main_database_name⟩ }
        if database_config.main_collection_name ∉
            world.collection_names database_config.main_database_name then
          (s2, .sysExit Collections.NotFoundError ENODATA)
        else
          ({ s2 with
              main_collection := some ⟨database_config.main_database_name,
                                       database_config.main_collection_name⟩,
              database_config := some database_config }, .ok)

/-- `MongoDB.is_initialized` (mongodb.py lines 189–191). -/
def MongoDB.is_initialized (s : MongoDBState) : Bool :=
  s.client.isSome

/-- `MongoDB.close` (mongodb.py lines 194–203): with a live client it
closes it and resets `__client` and `__database_config` (and nothing
else); without one it exits fatally with `CloseNotAllowedError`. -/
def MongoDB.close (s : MongoDBState) : MongoDBState × Outcome :=
  match s.client with
  | some _ => ({ s with client := none, database_config := none }, .ok)
  | none => (s, .sysExit Client.CloseNotAllowedError EIO)

/-- `MongoDB.get_database` (mongodb.py lines 277–300): `None` resolves to
the stored main database; a known name resolves to a fresh handle; an
unknown name raises `Databases.NotFoundError`. -/
def MongoDB.get_database (world : MongoWorld) (s : MongoDBState)
    (database_name : Option String) :
    Except ResponseError (Option AsyncIOMotorDatabase) :=
  match database_name with
  | none => .ok s.main_database
  | some n =>
      if n ∈ world.database_names then .ok (some ⟨n⟩)
      else .error Databases.NotFoundError

/-- `MongoDB.get_collection` (mongodb.py lines 233–273): both names `None`
resolves to the stored main collection; both present validates the
database (via `get_database`) and then the collection against the live
listing; any other combination raises `Collections.WrongTypeError`. -/
def MongoDB.get_collection (world : MongoWorld) (s : MongoDBState)
    (database_name collection_name : Option String) :
    Except ResponseError (Option AsyncIOMotorCollection) :=
  match database_name, collection_name with
  | none, none => .ok s.main_collection
  | some dbn, some cn =>
      match MongoDB.get_database world s (some dbn) with
      | .error e => .error e
      | .ok _db =>
          if cn ∈ world.collection_names dbn then .ok (some ⟨dbn, cn⟩)
          else .error Collections.NotFoundError
  | _, _ => .error Collections.WrongTypeError

end mongodb

/-! ## `trolldb/cli.py` — the message recorder -/

namespace cli

/-- Log levels of the loguru calls made by the recorder. -/
inductive LogLevel where
  | debug
  | info
  | error
deriving DecidableEq, Repr

/-- Python `data[key]` on a dictionary value, as an `Option` (missing key
or a non-dict receiver gives `none`, modelling a raised `KeyError` /
`TypeError`). -/
def getItem (data : PyValue) (key : String) : Option PyValue :=
  match data with
  | .dict kvs => kvs.lookup key
  | _ => none

/-- Whether a stored document matches the MongoDB filter `{"uri": uri}`:
its top-level `uri` field equals the string. -/
def matchesUri (doc : PyValue) (uri : String) : Bool :=
  match getItem doc "uri" with
  | some (.str u) => u = uri
  | _ => false

/-- Whether a stored document matches the MongoDB filter
`{"dataset.uri": uri}`: its `dataset` field is an array one of whose
elements has a `uri` field equal to the string (or, per MongoDB dotted
paths, a plain subdocument whose `uri` field equals the string). -/
def matchesDatasetUri (doc : PyValue) (uri : String) : Bool :=
  match getItem doc "dataset" with
  | some (.list items) =>
      items.any fun item =>
        match getItem item "uri" with
        | some (.str u) => u = uri
        | _ => false
  | some (.dict kvs) =>
      match getItem (.dict kvs) "uri" with
      | some (.str u) => u = uri
      | _ => false
  | _ => false

/-- `collection.delete_many(filter)`: removes every matching document from
the store and reports the deleted count. -/
def delete_many (store : List PyValue) (filt : PyValue → Bool) :
    List PyValue × Nat :=
  (store.filter (fun d => !(filt d)), (store.filter filt).length)

/-- `delete_uri_from_collection` (cli.py lines 16–37): a `delete_many`
with the top-level `uri` filter, an info log if that count is exactly 1,
then a `delete_many` with the nested `dataset.uri` filter on what is left,
an info log if that count is exactly 1, and the sum of the two counts as
result. Returns the remaining store, the combined count, and the logs. -/
def delete_uri_from_collection (store : List PyValue) (uri : String) :
    List PyValue × Nat × List LogLevel :=
  let fileRes := delete_many store (fun d => matchesUri d uri)
  let fileLogs : List LogLevel := if fileRes.2 = 1 then [.info] else []
  let datasetRes := delete_many fileRes.1 (fun d => matchesDatasetUri d uri)
  let datasetLogs : List LogLevel := if datasetRes.2 = 1 then [.info] else []
  (datasetRes.1, fileRes.2 + datasetRes.2, fileLogs ++ datasetLogs)

/-- A decoded posttroll message as the recorder reads it: its `type`
discriminator and its `data` mapping. -/
structure Message where
  type : String
  data : PyValue
deriving Repr

/-- One iteration of the recorder loop (cli.py lines 48–60): dispatch on
`msg.type`. `"file"` and `"dataset"` insert the payload and log (their log
lines read `msg.data["uri"]` resp. `len(msg.data["dataset"])`, so a
missing field raises — modelled by `none`). `"del"` runs
`delete_uri_from_collection` on `msg.data["uri"]` and logs an error only
when the returned count is `> 1` (lines 55–58). Any other type only logs
at debug level. `none` models an uncaught exception; no branch calls
`sys_exit_log`. -/
def processMessage (store : List PyValue) (msg : Message) :
    Option (List PyValue × List LogLevel) :=
  if msg.type = "file" then
    match getItem msg.data "uri" with
    | some _ => some (store ++ [msg.data], [.info])
    | none => none
  else if msg.type = "dataset" then
    match getItem msg.data "dataset" with
    | some _ => some (store ++ [msg.data], [.info])
    | none => none
  else if msg.type = "del" then
    match getItem msg.data "uri" with
    | some (.str uri) =>
        let res := delete_uri_from_collection store uri
        some (res.1, res.2.2 ++ (if res.2.1 > 1 then [.error] else []))
    | _ => none
  else
    some (store, [.debug])

/-- The recorder loop of `record_messages` (cli.py lines 46–60) over a
finite prefix of the subscription stream, threading the store through the
iterations and accumulating the logs. -/
def record_messages (store : List PyValue) :
    List Message → Option (List PyValue × List LogLevel)
  | [] => some (store, [])
  | m :: ms =>
      match processMessage store m with
      | none => none
      | some (s, logs) =>
          match record_messages s ms with
          | none => none
          | some res => some (res.1, logs ++ res.2)

end cli

/-! ## Theorems about the pipeline builder and the queries route -/

/-- C1: at `time_min = 10`, `time_max = 20` the queries route's time
filter is the OR of four independent bound checks — and therefore differs
from the conjunction-of-bounds-per-field combination, OR-combined across
the two fields, that the claim describes. -/
theorem C1_time_filter_is_or_of_four_bounds :
    queries.timeFilter (.int 10) (.int 20) =
      .dict [("$or", .list
        [.dict [("$or", .list
          [.dict [("$or", .list
            [.dict [("start_time", .dict [("$gte", .int 10)])],
             .dict [("start_time", .dict [("$lte", .int 20)])]])],
           .dict [("end_time", .dict [("$gte", .int 10)])]])],
         .dict [("end_time", .dict [("$lte", .int 20)])]])] ∧
    queries.timeFilter (.int 10) (.int 20) ≠
      queries.timeFilterSpec (.int 10) (.int 20) := by
  refine ⟨rfl, ?_⟩
  simp [queries.timeFilter, queries.timeFilterSpec,
    piplines.PipelineBooleanDict.or, piplines.PipelineBooleanDict.and,
    piplines.PipelineAttribute.ge, piplines.PipelineAttribute.le,
    piplines.PipelineAttribute.auxOperators, PyValue.truthy]

/-- C7 (counterexample): with the list value `v1 = [1]` and `v2 = 2`,
`Attribute("a") == [v1, v2]` embeds `v1` verbatim as an equality leaf,
while `(Attribute("a") == v1) | (Attribute("a") == v2)` expands `v1` into
its own `$or`; the two results are not structurally equal, so the claim's
unrestricted quantification over values fails. -/
theorem C7_eq_list_law_counterexample :
    pipelines.PipelineAttribute.eq "a" (.list [.list [.int 1], .int 2]) ≠
      pipelines.PipelineBooleanDict.or
        (pipelines.PipelineAttribute.eq "a" (.list [.int 1]))
        (pipelines.PipelineAttribute.eq "a" (.int 2)) := by
  simp [pipelines.PipelineAttribute.eq, pipelines.PipelineBooleanDict.or]

/-- C7 (amended): for every field `k` and all non-list values `v1`, `v2`,
the predicate built by `Attribute(k) == [v1, v2]` is structurally equal to
the OR-combination `(Attribute(k) == v1) | (Attribute(k) == v2)`, both
rendering to `{"$or": [{k: v1}, {k: v2}]}` — in both pipeline modules. -/
theorem C7_eq_list_or_law (k : String) (v1 v2 : PyValue)
    (h1 : v1.isList = false) (h2 : v2.isList = false) :
    pipelines.PipelineAttribute.eq k (.list [v1, v2]) =
      pipelines.PipelineBooleanDict.or
        (pipelines.PipelineAttribute.eq k v1)
        (pipelines.PipelineAttribute.eq k v2) ∧
    pipelines.PipelineAttribute.eq k (.list [v1, v2]) =
      .dict [("$or", .list [.dict [(k, v1)], .dict [(k, v2)]])] ∧
    piplines.PipelineAttribute.eq k (.list [v1, v2]) =
      piplines.PipelineBooleanDict.or
        (piplines.PipelineAttribute.eq k v1)
        (piplines.PipelineAttribute.eq k v2) := by
  cases v1 <;> cases v2 <;>
    simp_all [PyValue.isList,
      pipelines.PipelineAttribute.eq, pipelines.PipelineBooleanDict.or,
      piplines.PipelineAttribute.eq, piplines.PipelineBooleanDict.or]

/-- C7 (witness): the amended law at `k = "letter"`, `v1 = "A"`,
`v2 = "B"`. -/
theorem C7_eq_list_or_law_witness :
    pipelines.PipelineAttribute.eq "letter" (.list [.str "A", .str "B"]) =
      pipelines.PipelineBooleanDict.or
        (pipelines.PipelineAttribute.eq "letter" (.str "A"))
        (pipelines.PipelineAttribute.eq "letter" (.str "B")) :=
  (C7_eq_list_or_law "letter" (.str "A") (.str "B") rfl rfl).1

/-- C8: in `piplines.py` — the module imported by the queries route — the
comparison `Attribute("letter") < "A"` renders the invalid operator
`"$le"`, not `"$lt"`; the duplicate `pipelines.py` (the module the test
suite exercises) renders `"$lt"`, and the remaining comparisons `>=`, `>`
and `<=` render `"$gte"`, `"$gt"` and `"$lte"` in `piplines.py` as the
claim states. -/
theorem C8_comparison_operator_rendering :
    piplines.PipelineAttribute.lt "letter" (.str "A") =
      .dict [("letter", .dict [("$le", .str "A")])] ∧
    piplines.PipelineAttribute.lt "letter" (.str "A") ≠
      .dict [("letter", .dict [("$lt", .str "A")])] ∧
    pipelines.PipelineAttribute.lt "letter" (.str "A") =
      .dict [("letter", .dict [("$lt", .str "A")])] ∧
    piplines.PipelineAttribute.ge "letter" (.str "A") =
      .dict [("letter", .dict [("$gte", .str "A")])] ∧
    piplines.PipelineAttribute.gt "letter" (.str "A") =
      .dict [("letter", .dict [("$gt", .str "A")])] ∧
    piplines.PipelineAttribute.le "letter" (.str "A") =
      .dict [("letter", .dict [("$lte", .str "A")])] := by
  refine ⟨rfl, ?_, rfl, rfl, rfl, rfl⟩
  simp [piplines.PipelineAttribute.lt, piplines.PipelineAttribute.auxOperators,
    PyValue.truthy]

/-- C10: in both pipeline modules, `p + d` and `p += d` both append
exactly one `{"$match": d}` stage to the receiver's stages, preserve all
prior stages in order, grow the length by one, and return the very same
list object (`objId` preserved — `__add__` mutates its left operand in
place instead of building a fresh list). -/
theorem C10_pipelines_add_appends_in_place
    (p : pipelines.Pipelines) (q : piplines.Pipelines) (d : PyValue) :
    pipelines.Pipelines.add p d = pipelines.Pipelines.iadd p d ∧
    (pipelines.Pipelines.add p d).stages =
      p.stages ++ [.dict [("$match", d)]] ∧
    (pipelines.Pipelines.add p d).objId = p.objId ∧
    (pipelines.Pipelines.add p d).stages.length = p.stages.length + 1 ∧
    piplines.Pipelines.add q d = piplines.Pipelines.iadd q d ∧
    (piplines.Pipelines.add q d).stages =
      q.stages ++ [.dict [("$match", d)]] ∧
    (piplines.Pipelines.add q d).objId = q.objId ∧
    (piplines.Pipelines.add q d).stages.length = q.stages.length + 1 := by
  refine ⟨rfl, rfl, rfl, ?_, rfl, rfl, rfl, ?_⟩ <;>
    simp [pipelines.Pipelines.add, piplines.Pipelines.add]

/-! ## Theorems about the gateway lifecycle and the configuration -/

/-- C2 (counterexample): closing a fully-populated gateway clears the
client and the stored config but leaves the resolved main database and
main collection handles in place, so close() does not clear all stored
gateway state together. -/
theorem C2_close_leaves_main_handles :
    (mongodb.MongoDB.close
        { client := some ⟨"mongodb://localhost:27017", 1000⟩,
          database_config := some ⟨"db", "coll", "mongodb://localhost:27017", 1⟩,
          main_collection := some ⟨"db", "coll"⟩,
          main_database := some ⟨"db"⟩ }).1.main_database ≠ none ∧
    (mongodb.MongoDB.close
        { client := some ⟨"mongodb://localhost:27017", 1000⟩,
          database_config := some ⟨"db", "coll", "mongodb://localhost:27017", 1⟩,
          main_collection := some ⟨"db", "coll"⟩,
          main_database := some ⟨"db"⟩ }).1.client = none := by
  constructor
  · simp [mongodb.MongoDB.close]
  · rfl

/-- C2 (amended): `close()` with no active connection fails fatally with
`CloseNotAllowedError`; with an active connection it closes the client and
resets the connection handle and the active config together — but the
resolved main database and main collection handles are left untouched. -/
theorem C2_close_amended (s : mongodb.MongoDBState) :
    (s.client = none →
      mongodb.MongoDB.close s =
        (s, .sysExit Client.CloseNotAllowedError mongodb.EIO)) ∧
    (∀ h, s.client = some h →
      mongodb.MongoDB.close s =
        ({ s with client := none, database_config := none }, .ok)) := by
  constructor
  · intro hc
    simp [mongodb.MongoDB.close, hc]
  · intro h hc
    simp [mongodb.MongoDB.close, hc]

/-- C2 (witness): the amended statement at the empty gateway state and at
a fully-populated one. -/
theorem C2_close_amended_witness :
    mongodb.MongoDB.close
        { client := none, database_config := none,
          main_collection := none, main_database := none } =
      ({ client := none, database_config := none,
         main_collection := none, main_database := none },
       .sysExit Client.CloseNotAllowedError mongodb.EIO) ∧
    mongodb.MongoDB.close
        { client := some ⟨"mongodb://localhost:27017", 1000⟩,
          database_config := some ⟨"db", "coll", "mongodb://localhost:27017", 1⟩,
          main_collection := some ⟨"db", "coll"⟩,
          main_database := some ⟨"db"⟩ } =
      ({ client := none, database_config := none,
         main_collection := some ⟨"db", "coll"⟩,
         main_database := some ⟨"db"⟩ }, .ok) :=
  ⟨(C2_close_amended _).1 rfl, (C2_close_amended _).2 _ rfl⟩

/-- C3 (counterexample): with a live client handle but no stored config —
one of the two inconsistent shapes the claim quantifies over —
`initialize` does not fail with `InconsistencyError`; against a server
listing the configured names it succeeds outright. -/
theorem C3_client_without_config_not_detected :
    (mongodb.MongoDB.initializeClient
        ⟨true, ["db"], fun _ => ["coll"]⟩
        { client := some ⟨"mongodb://localhost:27017", 1000⟩,
          database_config := none,
          main_collection := none, main_database := none }
        ⟨"db", "coll", "mongodb://localhost:27017", 1⟩).2 = .ok ∧
    mongodb.Outcome.ok ≠
      .sysExit Client.InconsistencyError mongodb.EIO := by
  constructor
  · rfl
  · simp

/-- C3 (amended): only one of the two inconsistent shapes is detected:
with a stored config and no live client, `initialize` exits fatally —
with `InconsistencyError` when the new config equals the stored one and
with `ReinitializeConfigError` when it differs; a live client with no
stored config is never reported as an `InconsistencyError`. -/
theorem C3_initialize_inconsistency_amended
    (world : mongodb.MongoWorld) (s : mongodb.MongoDBState)
    (c stored : config.DatabaseConfig) :
    (s.database_config = some stored → s.client = none →
      ((c = stored →
        mongodb.MongoDB.initializeClient world s c =
          (s, .sysExit Client.InconsistencyError mongodb.EIO)) ∧
       (c ≠ stored →
        mongodb.MongoDB.initializeClient world s c =
          (s, .sysExit Client.ReinitializeConfigError mongodb.EIO)))) ∧
    (s.database_config = none →
      ∀ n, (mongodb.MongoDB.initializeClient world s c).2 ≠
        .sysExit Client.InconsistencyError n) := by
  constructor
  · intro hcfg hcl
    constructor
    · intro hc
      simp [mongodb.MongoDB.initializeClient, hcfg, hcl, hc]
    · intro hc
      simp [mongodb.MongoDB.initializeClient, hcfg, hcl, hc]
  · intro hcfg n
    simp only [mongodb.MongoDB.initializeClient, hcfg]
    split
    · simp [Client.InconsistencyError, Client.ConnectionError]
    · split
      · simp [Client.InconsistencyError, Databases.NotFoundError]
      · split
        · simp [Client.InconsistencyError, Collections.NotFoundError]
        · simp

/-- C3 (witness): a stored config equal to the incoming one with no live
client exits with `InconsistencyError`. -/
theorem C3_initialize_inconsistency_amended_witness :
    mongodb.MongoDB.initializeClient
        ⟨true, ["db"], fun _ => ["coll"]⟩
        { client := none,
          database_config := some ⟨"db", "coll", "mongodb://localhost:27017", 1⟩,
          main_collection := none, main_database := none }
        ⟨"db", "coll", "mongodb://localhost:27017", 1⟩ =
      ({ client := none,
         database_config := some ⟨"db", "coll", "mongodb://localhost:27017", 1⟩,
         main_collection := none, main_database := none },
       .sysExit Client.InconsistencyError mongodb.EIO) :=
  ((C3_initialize_inconsistency_amended _ _ _ _).1 rfl rfl).1 rfl

/-- C5: calling `initialize` again with the same config while already
connected is a state-preserving no-op whose outcome is the
`AlreadyOpenError` logged as a warning — not an error exit. -/
theorem C5_initialize_idempotent
    (world : mongodb.MongoWorld) (s : mongodb.MongoDBState)
    (c : config.DatabaseConfig) (h : mongodb.AsyncIOMotorClient)
    (hcfg : s.database_config = some c) (hcl : s.client = some h) :
    mongodb.MongoDB.initializeClient world s c =
      (s, .warning Client.AlreadyOpenError) := by
  simp [mongodb.MongoDB.initializeClient, hcfg, hcl]

/-- C5 (witness): the idempotence at a concrete connected state. -/
theorem C5_initialize_idempotent_witness :
    mongodb.MongoDB.initializeClient
        ⟨true, ["db"], fun _ => ["coll"]⟩
        { client := some ⟨"mongodb://localhost:27017", 1000⟩,
          database_config := some ⟨"db", "coll", "mongodb://localhost:27017", 1⟩,
          main_collection := some ⟨"db", "coll"⟩,
          main_database := some ⟨"db"⟩ }
        ⟨"db", "coll", "mongodb://localhost:27017", 1⟩ =
      ({ client := some ⟨"mongodb://localhost:27017", 1000⟩,
         database_config := some ⟨"db", "coll", "mongodb://localhost:27017", 1⟩,
         main_collection := some ⟨"db", "coll"⟩,
         main_database := some ⟨"db"⟩ },
       .warning Client.AlreadyOpenError) :=
  C5_initialize_idempotent _ _ _ _ rfl rfl

/-- C6: `get_collection(None, None)` returns the stored main collection,
and with exactly one of the two names `None` it fails with
`Collections.WrongTypeError` for every server world — the existence of
the named database or collection is irrelevant. -/
theorem C6_get_collection_contract
    (world : mongodb.MongoWorld) (s : mongodb.MongoDBState)
    (col : mongodb.AsyncIOMotorCollection)
    (hmain : s.main_collection = some col) :
    mongodb.MongoDB.get_collection world s none none = .ok (some col) ∧
    (∀ dbn, mongodb.MongoDB.get_collection world s (some dbn) none =
      .error Collections.WrongTypeError) ∧
    (∀ cn, mongodb.MongoDB.get_collection world s none (some cn) =
      .error Collections.WrongTypeError) := by
  refine ⟨?_, fun dbn => rfl, fun cn => rfl⟩
  simp [mongodb.MongoDB.get_collection, hmain]

/-- C6 (witness): the contract at a concrete initialized state and a
world in which the named database and collection do exist. -/
theorem C6_get_collection_contract_witness :
    mongodb.MongoDB.get_collection
        ⟨true, ["db"], fun _ => ["coll"]⟩
        { client := some ⟨"mongodb://localhost:27017", 1000⟩,
          database_config := some ⟨"db", "coll", "mongodb://localhost:27017", 1⟩,
          main_collection := some ⟨"db", "coll"⟩,
          main_database := some ⟨"db"⟩ }
        none none = .ok (some ⟨"db", "coll"⟩) ∧
    mongodb.MongoDB.get_collection
        ⟨true, ["db"], fun _ => ["coll"]⟩
        { client := some ⟨"mongodb://localhost:27017", 1000⟩,
          database_config := some ⟨"db", "coll", "mongodb://localhost:27017", 1⟩,
          main_collection := some ⟨"db", "coll"⟩,
          main_database := some ⟨"db"⟩ }
        (some "db") none = .error Collections.WrongTypeError :=
  ⟨(C6_get_collection_contract _ _ _ rfl).1,
   (C6_get_collection_contract _ _ ⟨"db", "coll"⟩ rfl).2.1 "db"⟩

/-- C9 (counterexample): the config with both primary names empty and
timeout 0 passes validation — non-emptiness of the names is not
enforced by the source. -/
theorem C9_empty_names_validate :
    config.DatabaseConfig.validates
      ⟨"", "", "mongodb://localhost:27017", 0⟩ = true ∧
    (⟨"", "", "mongodb://localhost:27017", 0⟩ :
        config.DatabaseConfig).main_database_name = "" := ⟨rfl, rfl⟩

/-- C9 (amended): validation accepts a `DatabaseConfig` precisely when its
timeout is non-negative (`Field(gt=-1)` on an `int`); the two primary
names are only constrained to be strings, so empty names are accepted. -/
theorem C9_validates_iff_timeout_nonneg (c : config.DatabaseConfig) :
    config.DatabaseConfig.validates c = true ↔ 0 ≤ c.timeout := by
  simp [config.DatabaseConfig.validates]
  omega

/-! ## Theorems about the message recorder -/

/-- `delete_uri_from_collection` logs only at info level: the error line
for an anomalous count lives in the caller (`record_messages`). -/
theorem cli.error_not_mem_delete_logs (store : List PyValue) (uri : String) :
    cli.LogLevel.error ∉ (cli.delete_uri_from_collection store uri).2.2 := by
  simp only [cli.delete_uri_from_collection]
  split <;> split <;> simp

/-- C4 (counterexample): a `"del"` message whose URI matches nothing in
the store yields a combined deleted count of 0 — which is "other than
exactly 1" — yet the recorder logs no error at all: the error line is
guarded by `deletion_count > 1`. -/
theorem C4_del_count_zero_logs_no_error :
    (cli.delete_uri_from_collection [] "file:///a").2.1 = 0 ∧
    cli.processMessage [] ⟨"del", .dict [("uri", .str "file:///a")]⟩ =
      some ([], []) := ⟨rfl, rfl⟩

/-- C4 (amended): for every `"del"` message the deletion returns the
combined count — documents matching the top-level `uri` filter plus
documents among the remainder matching the nested `dataset.uri` filter —
and an error is logged exactly when this combined count is strictly
greater than 1 (in particular, a count of 0 logs no error); the condition
is never fatal: the recorder continues with the remaining messages on the
updated store. -/
theorem C4_del_combined_count_error_only_above_one
    (store : List PyValue) (uri : String) (data : PyValue)
    (rest : List cli.Message)
    (huri : cli.getItem data "uri" = some (.str uri)) :
    (cli.delete_uri_from_collection store uri).2.1 =
      (store.filter (fun d => cli.matchesUri d uri)).length +
      ((store.filter (fun d => !(cli.matchesUri d uri))).filter
        (fun d => cli.matchesDatasetUri d uri)).length ∧
    (cli.LogLevel.error ∈
      ((cli.delete_uri_from_collection store uri).2.2 ++
        (if (cli.delete_uri_from_collection store uri).2.1 > 1
         then [cli.LogLevel.error] else [])) ↔
      (cli.delete_uri_from_collection store uri).2.1 > 1) ∧
    cli.processMessage store ⟨"del", data⟩ =
      some ((cli.delete_uri_from_collection store uri).1,
        (cli.delete_uri_from_collection store uri).2.2 ++
        (if (cli.delete_uri_from_collection store uri).2.1 > 1
         then [cli.LogLevel.error] else [])) ∧
    cli.record_messages store (⟨"del", data⟩ :: rest) =
      (match cli.record_messages
          (cli.delete_uri_from_collection store uri).1 rest with
       | none => none
       | some res =>
          some (res.1,
            ((cli.delete_uri_from_collection store uri).2.2 ++
              (if (cli.delete_uri_from_collection store uri).2.1 > 1
               then [cli.LogLevel.error] else [])) ++ res.2)) := by
  have hpm : cli.processMessage store ⟨"del", data⟩ =
      some ((cli.delete_uri_from_collection store uri).1,
        (cli.delete_uri_from_collection store uri).2.2 ++
        (if (cli.delete_uri_from_collection store uri).2.1 > 1
         then [cli.LogLevel.error] else [])) := by
    simp [cli.processMessage, huri]
  refine ⟨rfl, ?_, hpm, ?_⟩
  · by_cases hc : (cli.delete_uri_from_collection store uri).2.1 > 1 <;>
      simp [hc, cli.error_not_mem_delete_logs store uri]
  · simp only [cli.record_messages, hpm]

/-- C4 (witness): a store holding two documents with the same URI gives a
combined count of 2, and the error log is emitted. -/
theorem C4_del_combined_count_witness :
    cli.LogLevel.error ∈
      ((cli.delete_uri_from_collection
          [PyValue.dict [("uri", PyValue.str "u")],
           PyValue.dict [("uri", PyValue.str "u")]] "u").2.2 ++
        (if (cli.delete_uri_from_collection
            [PyValue.dict [("uri", PyValue.str "u")],
             PyValue.dict [("uri", PyValue.str "u")]] "u").2.1 > 1
         then [cli.LogLevel.error] else [])) ↔
      (cli.delete_uri_from_collection
          [PyValue.dict [("uri", PyValue.str "u")],
           PyValue.dict [("uri", PyValue.str "u")]] "u").2.1 > 1 :=
  (C4_del_combined_count_error_only_above_one
      [PyValue.dict [("uri", PyValue.str "u")],
       PyValue.dict [("uri", PyValue.str "u")]]
      "u" (.dict [("uri", .str "u")]) [] rfl).2.1

end Trolldb
